import Mathlib

/-!
Verification of the GCS storage gateway shim (`src/services/gcp_toolkit.py`).

A shallow embedding of the module `services/gcp_toolkit.py`:

* the module-level configuration snapshot (`GCP_BUCKET_NAME`, `GCP_SA_CREDENTIALS`)
  becomes an `Env` record;
* the client construction performed by `json.loads` +
  `service_account.Credentials.from_service_account_info` + `storage.Client`
  is an oracle `buildClient : String → Except String GCSClient` whose
  `Except.error` case stands for any exception raised by those calls;
* the storage backend reached by `blob.upload_from_filename` is an oracle
  `backend : UploadCall → Except String String` returning the public URL on
  success; every backend interaction performed by an operation is recorded in
  a `calls` list, and every `logger.*` line in a `logs` list;
* Python's `mimetypes.guess_type` (the strict, plain-path case) is embedded
  with its extension table, suffix map and encodings map.

Raising an exception is modelled by the error side of the result type;
functions that cannot raise are total Lean functions.
-/

/-- Log levels used by the module (`logging` is configured at INFO level,
so info, warning and error lines are all emitted). -/
inductive LogLevel where
  | info
  | warning
  | error
deriving DecidableEq, Repr

/-- One line produced by `logger.info` / `logger.warning` / `logger.error`. -/
structure LogEntry where
  level : LogLevel
  msg : String
deriving DecidableEq, Repr

/-- Opaque token standing for an authenticated `storage.Client` object. -/
structure GCSClient where
  id : Nat
deriving DecidableEq, Repr

/-- Module-level environment snapshot: `os.getenv('GCP_SA_CREDENTIALS')` and
`os.getenv('GCP_BUCKET_NAME')`; `none` is Python's `None` (variable absent). -/
structure Env where
  gcpSaCredentials : Option String
  gcpBucketName : Option String
deriving DecidableEq, Repr

/-- The data handed to the storage backend by one transfer attempt
(`gcs_client.bucket(bucket_name)` / `bucket.blob(...)` /
`blob.upload_from_filename(file_path)`). -/
structure UploadCall where
  bucket : Option String
  objectName : String
  contentType : Option String
  filePath : String
deriving DecidableEq, Repr

/-- The errors `upload_to_gcs` can raise: the `ValueError` of the disabled
gateway (the spec's ConfigurationError) or a re-raised backend exception. -/
inductive UploadError where
  | configError (msg : String)
  | backendError (msg : String)
deriving DecidableEq, Repr

/-- Result of a call to `upload_to_gcs`: the returned public URL or the raised
error, together with the log lines emitted and the backend calls performed. -/
structure UploadOutcome where
  result : Except UploadError String
  logs : List LogEntry
  calls : List UploadCall
deriving Repr

/-- ASCII case folding of one character (the case folding Python's
`str.lower` applies to the extension strings that occur here). -/
def lowerChar (c : Char) : Char :=
  if 'A' ≤ c ∧ c ≤ 'Z' then Char.ofNat (c.toNat + 32) else c

/-- ASCII case folding of a string, embedding `str.lower` on extensions. -/
def lowerStr (s : String) : String :=
  String.mk (s.data.map lowerChar)

/-- Embeds `posixpath.splitext`: split off the extension at the last dot of
the last path component, treating leading dots of the component as part of
the root (so `".bashrc"` and `"..pdf"` have no extension). -/
def splitext (p : String) : String × String :=
  let rev := p.data.reverse
  let a := rev.takeWhile (· ≠ '.')
  match rev.dropWhile (· ≠ '.') with
  | [] => (p, "")
  | _ :: baseRev =>
    if a.contains '/' then (p, "")
    else if (baseRev.takeWhile (· ≠ '/')).any (· ≠ '.') then
      (String.mk baseRev.reverse, String.mk ('.' :: a.reverse))
    else (p, "")

/-- Embeds `os.path.basename`: everything after the last `'/'`. -/
def basename (p : String) : String :=
  String.mk (p.data.reverse.takeWhile (· ≠ '/')).reverse

/-- Representative entries of the `mimetypes` default extension→type table
(keys are lowercase, exactly as in the Python table). -/
def types_map : List (String × String) :=
  [(".ai", "application/postscript"),
   (".avi", "video/x-msvideo"),
   (".bin", "application/octet-stream"),
   (".bmp", "image/bmp"),
   (".css", "text/css"),
   (".csv", "text/csv"),
   (".doc", "application/msword"),
   (".exe", "application/octet-stream"),
   (".gif", "image/gif"),
   (".htm", "text/html"),
   (".html", "text/html"),
   (".ico", "image/vnd.microsoft.icon"),
   (".jpeg", "image/jpeg"),
   (".jpg", "image/jpeg"),
   (".js", "text/javascript"),
   (".json", "application/json"),
   (".mov", "video/quicktime"),
   (".mp3", "audio/mpeg"),
   (".mp4", "video/mp4"),
   (".mpeg", "video/mpeg"),
   (".pdf", "application/pdf"),
   (".png", "image/png"),
   (".ps", "application/postscript"),
   (".svg", "image/svg+xml"),
   (".tar", "application/x-tar"),
   (".txt", "text/plain"),
   (".wav", "audio/x-wav"),
   (".webm", "video/webm"),
   (".webp", "image/webp"),
   (".xml", "text/xml"),
   (".zip", "application/zip")]

/-- The `mimetypes` suffix map: suffixes rewritten before type lookup. -/
def suffix_map : List (String × String) :=
  [(".svgz", ".svg.gz"),
   (".taz", ".tar.gz"),
   (".tbz2", ".tar.bz2"),
   (".tgz", ".tar.gz"),
   (".txz", ".tar.xz"),
   (".tz", ".tar.gz")]

/-- The `mimetypes` encodings map: suffixes denoting a content encoding,
stripped before the type lookup. Keys exactly as in CPython, including the
uppercase `'.Z'` for compress: the encodings lookup is case-sensitive
("encodings_map is case sensitive" in the CPython source), so a lowercase
`.z` suffix never matches. -/
def encodings_map : List (String × String) :=
  [(".br", "br"),
   (".bz2", "bzip2"),
   (".gz", "gzip"),
   (".xz", "xz"),
   (".Z", "compress")]

/-- The `while ext in suffix_map` loop of `mimetypes.guess_type`, with fuel;
under `suffix_map` every rewritten suffix leaves the map after one step, so
fuel 10 is never exhausted. -/
def suffixLoop : Nat → String → String → String × String
  | 0, base, ext => (base, ext)
  | fuel + 1, base, ext =>
    match suffix_map.find? (fun kv => kv.1 == lowerStr ext) with
    | some kv =>
      let p := splitext (base ++ kv.2)
      suffixLoop fuel p.1 p.2
    | none => (base, ext)

/-- The final table lookup of `mimetypes.guess_type`: the extension verbatim
first, then lowercased. -/
def lookupType (ext : String) : Option String :=
  match types_map.find? (fun kv => kv.1 == ext) with
  | some kv => some kv.2
  | none => (types_map.find? (fun kv => kv.1 == lowerStr ext)).map (·.2)

/-- Embeds `mimetypes.guess_type(path)` (strict mode, plain file path):
split off the extension, resolve the suffix map (case-insensitively), strip a
registered encoding suffix (case-sensitively, `if ext in self.encodings_map`
in CPython), then look the extension up (verbatim, then lowercased); returns
`(type?, encoding?)`. -/
def mimetypes_guess_type (path : String) : Option String × Option String :=
  match encodings_map.find? (fun kv =>
      kv.1 == (suffixLoop 10 (splitext path).1 (splitext path).2).2) with
  | some kv =>
    (lookupType (splitext (suffixLoop 10 (splitext path).1 (splitext path).2).1).2,
     some kv.2)
  | none => (lookupType (suffixLoop 10 (splitext path).1 (splitext path).2).2, none)

/-- Embeds `guess_content_type`: the guessed type (or `none`), plus the
warning logged when the type could not be determined. -/
def guess_content_type (file_path : String) : Option String × List LogEntry :=
  match (mimetypes_guess_type file_path).1 with
  | none =>
    (none, [⟨LogLevel.warning,
      "Could not determine content type for " ++ file_path ++
        ", this may default to application/octet-stream"⟩])
  | some t => (some t, [])

/-- Embeds `initialize_gcp_client` (named `init_gcp_client` here): if the
credential variable is absent or empty (Python falsiness) return `None`
silently (the warning on that path is commented out in the source); otherwise
run the client construction, catching any exception into an error log and
`None`. Returns the client option and the logs emitted. -/
def init_gcp_client (env : Env) (buildClient : String → Except String GCSClient) :
    Option GCSClient × List LogEntry :=
  match env.gcpSaCredentials with
  | none => (none, [])
  | some s =>
    if s = "" then (none, [])
    else
      match buildClient s with
      | Except.ok c => (some c, [])
      | Except.error e =>
        (none, [⟨LogLevel.error, "Failed to initialize GCS client: " ++ e⟩])

/-- The gateway's process-wide state: the module globals `gcs_client` and
`GCP_BUCKET_NAME` after module import. -/
structure Gateway where
  client : Option GCSClient
  defaultBucket : Option String
deriving DecidableEq, Repr

/-- Module import: capture `GCP_BUCKET_NAME` and run
`gcs_client = initialize_gcp_client()`. -/
def initGateway (env : Env) (buildClient : String → Except String GCSClient) :
    Gateway × List LogEntry :=
  let r := init_gcp_client env buildClient
  (⟨r.1, env.gcpBucketName⟩, r.2)

/-- Embeds `upload_to_gcs(file_path, bucket_name=GCP_BUCKET_NAME)` for a given
client option and an explicit bucket argument. The backend oracle answers the
single `blob.upload_from_filename` call with the public URL or an exception. -/
def upload_to_gcs (client? : Option GCSClient)
    (backend : UploadCall → Except String String)
    (file_path : String) (bucket_name : Option String) : UploadOutcome :=
  match client? with
  | none =>
    ⟨Except.error (UploadError.configError
        "GCS client is not initialized. Skipping file upload."), [], []⟩
  | some _ =>
    let g := guess_content_type file_path
    let content_type := g.1
    let logs1 := g.2 ++
      [⟨LogLevel.info, "Uploading file to Google Cloud Storage: " ++ file_path⟩]
    let logs2 := logs1 ++
      (match content_type with
       | some t => [⟨LogLevel.info, "Using content type: " ++ t⟩]
       | none => [])
    let call : UploadCall := ⟨bucket_name, basename file_path, content_type, file_path⟩
    match backend call with
    | Except.ok url =>
      ⟨Except.ok url,
       logs2 ++ [⟨LogLevel.info, "File uploaded successfully to GCS: " ++ url⟩],
       [call]⟩
    | Except.error e =>
      ⟨Except.error (UploadError.backendError e),
       logs2 ++ [⟨LogLevel.error, "Error uploading file to GCS: " ++ e⟩],
       [call]⟩

/-- A call to the upload operation: the file path, and either an explicit
bucket argument (`some b`) or reliance on the default parameter (`none`,
which resolves to the `GCP_BUCKET_NAME` captured at import time). -/
structure UploadReq where
  filePath : String
  bucketArg : Option (Option String)
deriving DecidableEq, Repr

/-- One upload invocation against the process state. `upload_to_gcs` assigns
no global, so the gateway state it returns is the state it received. -/
def runUpload (g : Gateway) (backend : UploadCall → Except String String)
    (r : UploadReq) : Gateway × UploadOutcome :=
  (g, upload_to_gcs g.client backend r.filePath (r.bucketArg.getD g.defaultBucket))

/-- A whole process life after import: a sequence of upload invocations,
threading the gateway state. -/
def runUploads (g : Gateway) (backend : UploadCall → Except String String) :
    List UploadReq → Gateway × List UploadOutcome
  | [] => (g, [])
  | r :: rs =>
    let p := runUpload g backend r
    let q := runUploads p.1 backend rs
    (q.1, p.2 :: q.2)

/-- Reference lookup following the spec's words: a static mapping from the
normalized lowercase extension to a MIME type, with an explicit unknown
result. -/
def specLookupType (ext : String) : Option String :=
  (types_map.find? (fun kv => kv.1 == lowerStr ext)).map (·.2)

/-- Reference content-type inference following the spec's words
(conventional guess-type-from-name semantics): split off the filename suffix,
resolve registered compound suffixes, strip a registered encoding suffix, and
look the suffix up case-insensitively in the static table; every suffix
match, the encoding one included, is case-insensitive here, per the spec's
"case-insensitive suffix matching"; unknown is a result, not an error. To be
compared with `mimetypes_guess_type`. -/
def spec_guess_type (path : String) : Option String :=
  match encodings_map.find? (fun kv =>
      lowerStr kv.1 == lowerStr (suffixLoop 10 (splitext path).1 (splitext path).2).2) with
  | some _ => specLookupType (splitext (suffixLoop 10 (splitext path).1 (splitext path).2).1).2
  | none => specLookupType (suffixLoop 10 (splitext path).1 (splitext path).2).2

/-! Helper lemmas shared by the claim theorems. -/

/-- Every key of the extension table is already lowercase. -/
theorem types_map_keys_lower : ∀ kv ∈ types_map, lowerStr kv.1 = kv.1 := by decide

/-- The two-stage lookup of `mimetypes.guess_type` (extension verbatim, then
lowercased) agrees with the single lowercase-normalized lookup. -/
theorem lookupType_eq_spec (ext : String) : lookupType ext = specLookupType ext := by
  unfold lookupType specLookupType
  cases h : types_map.find? (fun kv => kv.1 == ext) with
  | none => rfl
  | some kv =>
    have hkey : kv.1 = ext := by simpa using List.find?_some h
    have hmem : kv ∈ types_map := List.mem_of_find?_eq_some h
    have hlow : lowerStr ext = ext := by
      rw [← hkey]; exact types_map_keys_lower kv hmem
    rw [hlow, h]
    rfl

/-- `guess_content_type` forwards the first component of
`mimetypes.guess_type`. -/
theorem guess_content_type_fst (p : String) :
    (guess_content_type p).1 = (mimetypes_guess_type p).1 := by
  unfold guess_content_type
  cases h : (mimetypes_guess_type p).1 <;> simp

/-- Unfolding of `upload_to_gcs` on an enabled gateway. -/
theorem upload_some_eq (c : GCSClient) (backend : UploadCall → Except String String)
    (fp : String) (b : Option String) :
    upload_to_gcs (some c) backend fp b =
      match backend ⟨b, basename fp, (guess_content_type fp).1, fp⟩ with
      | Except.ok url =>
        ⟨Except.ok url,
         (guess_content_type fp).2 ++
           [⟨LogLevel.info, "Uploading file to Google Cloud Storage: " ++ fp⟩] ++
           (match (guess_content_type fp).1 with
            | some t => [⟨LogLevel.info, "Using content type: " ++ t⟩]
            | none => []) ++
           [⟨LogLevel.info, "File uploaded successfully to GCS: " ++ url⟩],
         [⟨b, basename fp, (guess_content_type fp).1, fp⟩]⟩
      | Except.error e =>
        ⟨Except.error (UploadError.backendError e),
         (guess_content_type fp).2 ++
           [⟨LogLevel.info, "Uploading file to Google Cloud Storage: " ++ fp⟩] ++
           (match (guess_content_type fp).1 with
            | some t => [⟨LogLevel.info, "Using content type: " ++ t⟩]
            | none => []) ++
           [⟨LogLevel.error, "Error uploading file to GCS: " ++ e⟩],
         [⟨b, basename fp, (guess_content_type fp).1, fp⟩]⟩ := rfl

/-- On an enabled gateway exactly one backend call is made, and it carries the
base name of the path as the object key. -/
theorem upload_some_calls (c : GCSClient) (backend : UploadCall → Except String String)
    (fp : String) (b : Option String) :
    (upload_to_gcs (some c) backend fp b).calls =
      [⟨b, basename fp, (guess_content_type fp).1, fp⟩] := by
  rw [upload_some_eq]
  cases backend ⟨b, basename fp, (guess_content_type fp).1, fp⟩ <;> rfl

/-- `takeWhile` consumes a block that satisfies the predicate and stops at the
first element that does not. -/
theorem takeWhile_all_append {p : Char → Bool} (c0 : Char) (hc : p c0 = false) :
    ∀ l1 l2 : List Char, (∀ c ∈ l1, p c = true) →
      (l1 ++ c0 :: l2).takeWhile p = l1 := by
  intro l1
  induction l1 with
  | nil => intro l2 _; simp [List.takeWhile_cons, hc]
  | cons a l ih =>
    intro l2 h
    have ha : p a = true := h a (List.mem_cons_self a l)
    simp [List.takeWhile_cons, ha,
      ih l2 (fun c hcm => h c (List.mem_cons_of_mem a hcm))]

/-- `basename` strips all directory components: appending a slash-free name
to any directory prefix yields that name. -/
theorem basename_append (dir name : String) (h : ('/' : Char) ∉ name.data) :
    basename (dir ++ "/" ++ name) = name := by
  unfold basename
  have hdata : (dir ++ "/" ++ name).data = dir.data ++ '/' :: name.data := by
    rw [String.data_append, String.data_append, List.append_assoc]; rfl
  rw [hdata, List.reverse_append, List.reverse_cons, List.append_assoc,
    List.singleton_append]
  rw [takeWhile_all_append '/' (by simp) name.data.reverse dir.data.reverse
    (fun c hcm => by
      have hmem : c ∈ name.data := List.mem_reverse.mp hcm
      simp only [ne_eq, decide_eq_true_eq]
      exact fun heq => h (heq ▸ hmem))]
  rw [List.reverse_reverse]

/-- C1 (counterexample): the claim's quoted message "client not initialized"
is not the message the disabled upload raises — the raised ConfigurationError
carries "GCS client is not initialized. Skipping file upload.", which does
not even contain the claimed message. -/
theorem C1_counterexample :
    (upload_to_gcs none (fun _ => Except.ok "url") "report.pdf" (some "bucket")).result =
        Except.error (UploadError.configError
          "GCS client is not initialized. Skipping file upload.") ∧
      ¬ ("client not initialized".data <:+:
          "GCS client is not initialized. Skipping file upload.".data) :=
  ⟨rfl, by decide⟩

/-- C1 (amended): every call to the upload operation while the gateway is
disabled fails with ConfigurationError carrying the message "GCS client is
not initialized. Skipping file upload.", emits no log line, and performs no
backend call. -/
theorem C1_disabled_upload_fails (backend : UploadCall → Except String String)
    (fp : String) (b : Option String) :
    upload_to_gcs none backend fp b =
      ⟨Except.error (UploadError.configError
          "GCS client is not initialized. Skipping file upload."), [], []⟩ := rfl

/-- C2: gateway initialization never raises (it is a total function into an
option): an absent or empty credential blob yields the disabled state, and a
present blob on which client construction fails (malformed JSON or credential
failure) also yields the disabled state instead of propagating the error. -/
theorem C2_init_never_raises (env : Env) (build : String → Except String GCSClient) :
    (env.gcpSaCredentials = none → init_gcp_client env build = (none, [])) ∧
    (env.gcpSaCredentials = some "" → init_gcp_client env build = (none, [])) ∧
    (∀ s e, env.gcpSaCredentials = some s → s ≠ "" → build s = Except.error e →
      init_gcp_client env build =
        (none, [⟨LogLevel.error, "Failed to initialize GCS client: " ++ e⟩])) := by
  refine ⟨fun h => ?_, fun h => ?_, fun s e hs hne hb => ?_⟩
  · simp [init_gcp_client, h]
  · simp [init_gcp_client, h]
  · simp [init_gcp_client, hs, hne, hb]

/-- Witness for C2 at a concrete absent-credential environment and a concrete
malformed-credential environment. -/
theorem C2_witness :
    init_gcp_client ⟨none, some "bkt"⟩ (fun _ => Except.error "boom") = (none, []) ∧
    init_gcp_client ⟨some "not json", none⟩ (fun _ => Except.error "boom") =
      (none, [⟨LogLevel.error, "Failed to initialize GCS client: " ++ "boom"⟩]) :=
  ⟨(C2_init_never_raises ⟨none, some "bkt"⟩ (fun _ => Except.error "boom")).1 rfl,
   (C2_init_never_raises ⟨some "not json", none⟩ (fun _ => Except.error "boom")).2.2
     "not json" "boom" rfl (by decide) rfl⟩

/-- C3: content-type inference is a total function returning a type or the
unknown signal; `report.pdf` yields `application/pdf` with no diagnostic, an
unrecognized extension yields `none` plus a logged warning, and in general
the warning is emitted exactly on the unknown case. -/
theorem C3_content_type_inference (p : String) :
    guess_content_type "report.pdf" = (some "application/pdf", []) ∧
    guess_content_type "data.unknownext" =
      (none, [⟨LogLevel.warning,
        "Could not determine content type for data.unknownext, this may default to application/octet-stream"⟩]) ∧
    (guess_content_type p).2 =
      (match (guess_content_type p).1 with
       | none => [⟨LogLevel.warning,
           "Could not determine content type for " ++ p ++
             ", this may default to application/octet-stream"⟩]
       | some _ => []) := by
  refine ⟨by decide, by decide, ?_⟩
  unfold guess_content_type
  cases h : (mimetypes_guess_type p).1 <;> simp

/-- C4: the remote object key used by an enabled upload is exactly the local
path's base name (directory components stripped), so equal base names target
the identical key, and a repeated upload of the same path succeeds with the
backend's answer — no collision error arises. -/
theorem C4_remote_key_is_basename (c : GCSClient)
    (backend : UploadCall → Except String String)
    (fp fpB dir name : String) (b : Option String) (url : String)
    (hname : ('/' : Char) ∉ name.data)
    (hbase : basename fp = basename fpB)
    (hok : backend ⟨b, basename fp, (guess_content_type fp).1, fp⟩ = Except.ok url) :
    basename (dir ++ "/" ++ name) = name ∧
    (upload_to_gcs (some c) backend fp b).calls.map UploadCall.objectName =
      [basename fp] ∧
    (upload_to_gcs (some c) backend fpB b).calls.map UploadCall.objectName =
      [basename fp] ∧
    (upload_to_gcs (some c) backend fp b).result = Except.ok url := by
  refine ⟨basename_append dir name hname, ?_, ?_, ?_⟩
  · rw [upload_some_calls]; rfl
  · rw [upload_some_calls, ← hbase]; rfl
  · rw [upload_some_eq, hok]

/-- Witness for C4: two concrete paths with the same base name in different
directories, and a backend that accepts the transfer. -/
theorem C4_witness :
    basename ("/tmp/a" ++ "/" ++ "file.bin") = "file.bin" ∧
    (upload_to_gcs (some ⟨0⟩) (fun _ => Except.ok "https://u") "/tmp/a/file.bin"
        (some "bkt")).calls.map UploadCall.objectName = [basename "/tmp/a/file.bin"] ∧
    (upload_to_gcs (some ⟨0⟩) (fun _ => Except.ok "https://u") "/tmp/b/file.bin"
        (some "bkt")).calls.map UploadCall.objectName = [basename "/tmp/a/file.bin"] ∧
    (upload_to_gcs (some ⟨0⟩) (fun _ => Except.ok "https://u") "/tmp/a/file.bin"
        (some "bkt")).result = Except.ok "https://u" :=
  C4_remote_key_is_basename ⟨0⟩ (fun _ => Except.ok "https://u")
    "/tmp/a/file.bin" "/tmp/b/file.bin" "/tmp/a" "file.bin" (some "bkt") "https://u"
    (by decide) (by decide) rfl

/-- C5: an enabled upload targets the caller's explicit bucket argument when
one is supplied, and otherwise the default bucket captured from
`GCP_BUCKET_NAME` at process start (which `initGateway` records verbatim). -/
theorem C5_bucket_selection (g : Gateway) (c : GCSClient)
    (backend : UploadCall → Except String String) (fp : String) (bArg : Option String)
    (h : g.client = some c) :
    (runUpload g backend ⟨fp, some bArg⟩).2.calls.map UploadCall.bucket = [bArg] ∧
    (runUpload g backend ⟨fp, none⟩).2.calls.map UploadCall.bucket =
      [g.defaultBucket] ∧
    (∀ env build, (initGateway env build).1.defaultBucket = env.gcpBucketName) := by
  refine ⟨?_, ?_, fun env build => rfl⟩
  · show (upload_to_gcs g.client backend fp
        ((some bArg).getD g.defaultBucket)).calls.map UploadCall.bucket = [bArg]
    rw [h, upload_some_calls]; rfl
  · show (upload_to_gcs g.client backend fp
        ((none : Option (Option String)).getD g.defaultBucket)).calls.map
          UploadCall.bucket = [g.defaultBucket]
    rw [h, upload_some_calls]; rfl

/-- Witness for C5 at a concrete enabled gateway with default bucket
"default" and explicit override "override". -/
theorem C5_witness :
    (runUpload ⟨some ⟨0⟩, some "default"⟩ (fun _ => Except.ok "url")
        ⟨"f.bin", some (some "override")⟩).2.calls.map UploadCall.bucket =
      [some "override"] ∧
    (runUpload ⟨some ⟨0⟩, some "default"⟩ (fun _ => Except.ok "url")
        ⟨"f.bin", none⟩).2.calls.map UploadCall.bucket = [some "default"] :=
  ⟨(C5_bucket_selection ⟨some ⟨0⟩, some "default"⟩ ⟨0⟩ (fun _ => Except.ok "url")
      "f.bin" (some "override") rfl).1,
   (C5_bucket_selection ⟨some ⟨0⟩, some "default"⟩ ⟨0⟩ (fun _ => Except.ok "url")
      "f.bin" (some "override") rfl).2.1⟩

/-- C6: a backend error during the transfer step of an enabled upload is
re-raised to the caller carrying exactly the backend's error, the operation
performs exactly one backend call (no retry), and the error is logged. -/
theorem C6_backend_error_reraised (c : GCSClient)
    (backend : UploadCall → Except String String) (fp : String) (b : Option String)
    (e : String)
    (h : backend ⟨b, basename fp, (guess_content_type fp).1, fp⟩ = Except.error e) :
    (upload_to_gcs (some c) backend fp b).result =
      Except.error (UploadError.backendError e) ∧
    (upload_to_gcs (some c) backend fp b).calls =
      [⟨b, basename fp, (guess_content_type fp).1, fp⟩] ∧
    ⟨LogLevel.error, "Error uploading file to GCS: " ++ e⟩ ∈
      (upload_to_gcs (some c) backend fp b).logs := by
  refine ⟨?_, upload_some_calls c backend fp b, ?_⟩
  · rw [upload_some_eq, h]
  · rw [upload_some_eq, h]
    exact List.mem_append_right _ (List.mem_singleton_self _)

/-- Witness for C6 at a concrete permission-denied backend. -/
theorem C6_witness :
    (upload_to_gcs (some ⟨0⟩) (fun _ => Except.error "403 permission denied")
        "f.bin" (some "bkt")).result =
      Except.error (UploadError.backendError "403 permission denied") ∧
    (upload_to_gcs (some ⟨0⟩) (fun _ => Except.error "403 permission denied")
        "f.bin" (some "bkt")).calls =
      [⟨some "bkt", basename "f.bin", (guess_content_type "f.bin").1, "f.bin"⟩] ∧
    ⟨LogLevel.error, "Error uploading file to GCS: " ++ "403 permission denied"⟩ ∈
      (upload_to_gcs (some ⟨0⟩) (fun _ => Except.error "403 permission denied")
        "f.bin" (some "bkt")).logs :=
  C6_backend_error_reraised ⟨0⟩ (fun _ => Except.error "403 permission denied")
    "f.bin" (some "bkt") "403 permission denied" rfl

/-- C7 (counterexample): failures are not logged with file path and target
bucket context. A disabled upload logs nothing at all, and in a failing
enabled upload no emitted log line contains the target bucket name; the
ConfigurationError message contains neither the path nor the bucket. -/
theorem C7_counterexample :
    (upload_to_gcs none (fun _ => Except.ok "url") "/tmp/f.mp4"
        (some "mybucket")).logs = [] ∧
    (upload_to_gcs (some ⟨0⟩) (fun _ => Except.error "denied") "/tmp/f.mp4"
        (some "mybucket")).logs =
      [⟨LogLevel.info, "Uploading file to Google Cloud Storage: /tmp/f.mp4"⟩,
       ⟨LogLevel.info, "Using content type: video/mp4"⟩,
       ⟨LogLevel.error, "Error uploading file to GCS: denied"⟩] ∧
    ¬ ("mybucket".data <:+: "Uploading file to Google Cloud Storage: /tmp/f.mp4".data) ∧
    ¬ ("mybucket".data <:+: "Using content type: video/mp4".data) ∧
    ¬ ("mybucket".data <:+: "Error uploading file to GCS: denied".data) ∧
    ¬ ("mybucket".data <:+: "GCS client is not initialized. Skipping file upload.".data) ∧
    ¬ ("/tmp/f.mp4".data <:+: "GCS client is not initialized. Skipping file upload.".data) :=
  ⟨rfl, by decide, by decide, by decide, by decide, by decide, by decide⟩

/-- C7 (amended): a backend failure is logged with the backend error's text,
preceded by an info line carrying the file path (the target bucket is never
logged); a disabled upload raises the fixed ConfigurationError message with
no log line; a startup credential failure is logged with the underlying
error's text before the disabled state is returned. -/
theorem C7_amended_logging (c : GCSClient)
    (backend : UploadCall → Except String String) (fp : String) (b : Option String)
    (e : String)
    (h : backend ⟨b, basename fp, (guess_content_type fp).1, fp⟩ = Except.error e) :
    ⟨LogLevel.error, "Error uploading file to GCS: " ++ e⟩ ∈
      (upload_to_gcs (some c) backend fp b).logs ∧
    ⟨LogLevel.info, "Uploading file to Google Cloud Storage: " ++ fp⟩ ∈
      (upload_to_gcs (some c) backend fp b).logs ∧
    (∀ bk2 fp2 b2, upload_to_gcs none bk2 fp2 b2 =
      ⟨Except.error (UploadError.configError
          "GCS client is not initialized. Skipping file upload."), [], []⟩) ∧
    (∀ env build s e2, env.gcpSaCredentials = some s → s ≠ "" →
      build s = Except.error e2 →
      init_gcp_client env build =
        (none, [⟨LogLevel.error, "Failed to initialize GCS client: " ++ e2⟩])) := by
  refine ⟨?_, ?_, fun bk2 fp2 b2 => rfl,
    fun env build s e2 hs hne hb => by simp [init_gcp_client, hs, hne, hb]⟩
  · rw [upload_some_eq, h]
    exact List.mem_append_right _ (List.mem_singleton_self _)
  · rw [upload_some_eq, h]
    exact List.mem_append_left _ (List.mem_append_left _
      (List.mem_append_right _ (List.mem_singleton_self _)))

/-- Witness for C7 (amended) at a concrete failing backend, a concrete
disabled upload, and a concrete malformed-credential startup. -/
theorem C7_witness :
    ⟨LogLevel.error, "Error uploading file to GCS: " ++ "denied"⟩ ∈
      (upload_to_gcs (some ⟨0⟩) (fun _ => Except.error "denied") "/tmp/g.mp4"
        (some "mybucket")).logs ∧
    ⟨LogLevel.info, "Uploading file to Google Cloud Storage: " ++ "/tmp/g.mp4"⟩ ∈
      (upload_to_gcs (some ⟨0⟩) (fun _ => Except.error "denied") "/tmp/g.mp4"
        (some "mybucket")).logs ∧
    upload_to_gcs none (fun _ => Except.error "denied") "/tmp/g.mp4" none =
      ⟨Except.error (UploadError.configError
          "GCS client is not initialized. Skipping file upload."), [], []⟩ ∧
    init_gcp_client ⟨some "bad", none⟩ (fun _ => Except.error "boom") =
      (none, [⟨LogLevel.error, "Failed to initialize GCS client: " ++ "boom"⟩]) := by
  have h := C7_amended_logging ⟨0⟩ (fun _ => Except.error "denied") "/tmp/g.mp4"
    (some "mybucket") "denied" rfl
  exact ⟨h.1, h.2.1, h.2.2.1 _ "/tmp/g.mp4" none,
    h.2.2.2 ⟨some "bad", none⟩ _ "bad" "boom" rfl (by decide) rfl⟩

/-- C8 (counterexample): suffix matching is not case-insensitive in the
program. The encoding-suffix lookup is case-sensitive, so `x.tar.gz` resolves
to the tar type while `x.tar.GZ` — the same suffix up to case — yields the
unknown signal, diverging from the spec's case-insensitive conventional
reference, which resolves both. -/
theorem C8_counterexample :
    (guess_content_type "x.tar.gz").1 = some "application/x-tar" ∧
    (guess_content_type "x.tar.GZ").1 = none ∧
    spec_guess_type "x.tar.GZ" = some "application/x-tar" ∧
    (guess_content_type "x.tar.GZ").1 ≠ spec_guess_type "x.tar.GZ" :=
  ⟨by decide, by decide, by decide, by decide⟩

/-- C8 (amended): content-type inference performs extension lookup with
guess-type-from-name semantics in which the final extension→type lookup is
case-insensitive on every extension (it equals the lowercase-normalized
lookup) and the compound suffix map is matched case-insensitively, while the
encoding-suffix lookup (`.gz`, `.bz2`, `.xz`, `.br`, `.Z`) is case-sensitive;
a compound extension such as `.tar.gz` resolves via the registered
encoding-plus-tar handling only in its registered case (so `.tar.GZ` yields
the unknown signal and `.tar.Z` resolves). -/
theorem C8_amended_semantics (p ext : String) :
    (guess_content_type p).1 = (mimetypes_guess_type p).1 ∧
    lookupType ext = specLookupType ext ∧
    mimetypes_guess_type "REPORT.PDF" = (some "application/pdf", none) ∧
    mimetypes_guess_type "archive.tar.gz" = (some "application/x-tar", some "gzip") ∧
    mimetypes_guess_type "archive.TGZ" = mimetypes_guess_type "archive.tar.gz" ∧
    mimetypes_guess_type "x.tar.GZ" = (none, none) ∧
    mimetypes_guess_type "x.tar.Z" = (some "application/x-tar", some "compress") :=
  ⟨guess_content_type_fst p, lookupType_eq_spec ext,
   by decide, by decide, by decide, by decide, by decide⟩

/-- C9: the gateway state is never reassigned by any sequence of uploads, and
a gateway whose client is absent at startup makes every upload in the
sequence fail with the ConfigurationError and perform no backend call. -/
theorem C9_state_never_reassigned (g : Gateway)
    (backend : UploadCall → Except String String) (rs : List UploadReq) :
    (runUploads g backend rs).1 = g ∧
    (g.client = none → ∀ o ∈ (runUploads g backend rs).2,
      o.result = Except.error (UploadError.configError
        "GCS client is not initialized. Skipping file upload.") ∧
      o.calls = []) := by
  induction rs with
  | nil =>
    exact ⟨rfl, fun _ o ho => absurd ho (by simp [runUploads])⟩
  | cons r rs ih =>
    refine ⟨ih.1, fun hc o ho => ?_⟩
    have ho2 : o = upload_to_gcs g.client backend r.filePath
        (r.bucketArg.getD g.defaultBucket) ∨ o ∈ (runUploads g backend rs).2 := by
      simpa [runUploads, runUpload, List.mem_cons] using ho
    rcases ho2 with rfl | hmem
    · rw [hc]; exact ⟨rfl, rfl⟩
    · exact ih.2 hc o hmem

/-- Witness for C9 at a concrete disabled gateway running one upload. -/
theorem C9_witness :
    (runUploads ⟨none, some "bkt"⟩ (fun _ => Except.ok "url") [⟨"a.pdf", none⟩]).1 =
      ⟨none, some "bkt"⟩ ∧
    (upload_to_gcs none (fun _ => Except.ok "url") "a.pdf" (some "bkt")).result =
      Except.error (UploadError.configError
        "GCS client is not initialized. Skipping file upload.") ∧
    (upload_to_gcs none (fun _ => Except.ok "url") "a.pdf" (some "bkt")).calls = [] := by
  have h := C9_state_never_reassigned ⟨none, some "bkt"⟩ (fun _ => Except.ok "url")
    [⟨"a.pdf", none⟩]
  have hm := h.2 rfl (upload_to_gcs none (fun _ => Except.ok "url") "a.pdf" (some "bkt"))
    (by simp [runUploads, runUpload])
  exact ⟨h.1, hm.1, hm.2⟩

/-- C10: with the credential variable absent (or empty, also falsy in the
source) the gateway initializes silently into the disabled state, while a
present-but-malformed credential blob produces exactly one error-level log
line before the disabled state is returned. -/
theorem C10_init_diagnostics (build : String → Except String GCSClient)
    (bucket : Option String) :
    init_gcp_client ⟨none, bucket⟩ build = (none, []) ∧
    init_gcp_client ⟨some "", bucket⟩ build = (none, []) ∧
    (∀ s e, s ≠ "" → build s = Except.error e →
      (init_gcp_client ⟨some s, bucket⟩ build).2 =
        [⟨LogLevel.error, "Failed to initialize GCS client: " ++ e⟩]) := by
  refine ⟨rfl, ?_, fun s e hne hb => ?_⟩
  · simp [init_gcp_client]
  · simp [init_gcp_client, hne, hb]

/-- Witness for C10 at a concrete absent and a concrete malformed credential
blob. -/
theorem C10_witness :
    init_gcp_client ⟨none, some "bkt2"⟩ (fun _ => Except.error "bad key") =
      (none, []) ∧
    (init_gcp_client ⟨some "oops", some "bkt2"⟩ (fun _ => Except.error "bad key")).2 =
      [⟨LogLevel.error, "Failed to initialize GCS client: " ++ "bad key"⟩] :=
  ⟨(C10_init_diagnostics (fun _ => Except.error "bad key") (some "bkt2")).1,
   (C10_init_diagnostics (fun _ => Except.error "bad key") (some "bkt2")).2.2
     "oops" "bad key" (by decide) rfl⟩
